import Mathlib

/-!
Verification of the thin-edge.io core against its specification.

The development shallowly embeds three parts of the source tree:

* `crates/common/mqtt_channel/src/session.rs` — the persistent-session
  protocol (`init_session`, `clear_session`), modelled as total functions
  over a finite trace of MQTT event-loop events;
* the tedge operation converter (topic router) — modelled from the spec,
  since only its tests are in the source tree;
* `crates/extensions/c8y_mapper_ext/src/service_monitor.rs` — the health
  status to service-monitoring translation.
-/

namespace Session

/-- Connect return codes of the MQTT CONNACK packet (rumqttc `ConnectReturnCode`). -/
inductive ConnectReturnCode where
  | success
  | refusedProtocolVersion
  | badClientId
  | serviceUnavailable
  | badUserNamePassword
  | notAuthorized
  deriving DecidableEq, Repr

/-- Transport-level errors produced by the rumqttc event loop
(`rumqttc::ConnectionError`), abstracted to the two cases the source
distinguishes: a connection refusal carrying a return code, and any other
transport error (network failure, I/O, protocol violation, ...). -/
inductive ConnectionError where
  | connectionRefused (code : ConnectReturnCode)
  | other (kind : String)
  deriving DecidableEq, Repr

/-- The errors of `mqtt_channel` relevant to the session functions
(`MqttError` in the source): the invalid-session-configuration error and a
rejection reported by the broker in the CONNACK packet. -/
inductive MqttError where
  | invalidSessionConfig
  | connectionRejected (code : ConnectReturnCode)
  deriving DecidableEq, Repr

/-- Modelled from the spec: `MqttError::maybe_connection_error(&ack)` (in
`mqtt_channel`'s error module, not under the provided sources) checks the
CONNACK for "a broker-reported connection error (any non-success reason
code)" and surfaces the reason. -/
def maybe_connection_error (code : ConnectReturnCode) : Option MqttError :=
  if code = ConnectReturnCode.success then none
  else some (MqttError.connectionRejected code)

/-- One event delivered by `event_loop.poll().await`:
an incoming CONNACK, an incoming SUBACK, a transport error, or any other
event (matched by the wildcard arm of the source). -/
inductive Event where
  | connAck (code : ConnectReturnCode)
  | subAck
  | pollErr (e : ConnectionError)
  | otherEvent
  deriving DecidableEq, Repr

/-- The session configuration surface (`mqtt_channel::Config`), restricted
to the fields the session functions read. -/
structure Config where
  session_name : Option String
  clean_session : Bool
  subscriptions : List String
  queue_capacity : Nat
  deriving DecidableEq, Repr

/-- Why the event loop of `init_session` exited via `break`. -/
inductive BreakReason where
  /-- CONNACK received with success and an empty subscription set. -/
  | connAckNoSubs
  /-- SUBACK received. -/
  | subAck
  /-- A transport error other than connection-refused-with-success:
  logged as a warning, then `break`. -/
  | transportError (e : ConnectionError)
  deriving DecidableEq, Repr

/-- Outcome of running a session event loop on a finite event trace. -/
inductive LoopResult where
  /-- The loop exited via `break`; the function will disconnect and return `Ok`. -/
  | breakOk (why : BreakReason)
  /-- The loop executed `return Err(e)`, skipping the disconnect. -/
  | earlyErr (e : MqttError)
  /-- The trace was exhausted with the loop still polling. -/
  | pending
  deriving DecidableEq, Repr

/-- The event loop of `init_session` (session.rs lines 28-54), run on a
finite trace of poll results.  Returns the list of subscribe-many calls
issued (each with its filter list) together with the loop outcome. -/
def initLoopGo (filters : List String) : List Event → List (List String) × LoopResult
  | [] => ([], LoopResult.pending)
  | Event.connAck code :: rest =>
    match maybe_connection_error code with
    | some err => ([], LoopResult.earlyErr err)
    | none =>
      if filters.isEmpty then
        ([], LoopResult.breakOk BreakReason.connAckNoSubs)
      else
        let r := initLoopGo filters rest
        (filters :: r.1, r.2)
  | Event.subAck :: _ => ([], LoopResult.breakOk BreakReason.subAck)
  | Event.pollErr e :: rest =>
    match e with
    | ConnectionError.connectionRefused ConnectReturnCode.success => initLoopGo filters rest
    | _ => ([], LoopResult.breakOk (BreakReason.transportError e))
  | Event.otherEvent :: rest => initLoopGo filters rest

/-- The event loop of `clear_session` (session.rs lines 79-94): exits on the
first CONNACK (returning `Err` on a broker-reported rejection) or on the
first transport error (logged, then `break`). -/
def clearLoopGo : List Event → LoopResult
  | [] => LoopResult.pending
  | Event.connAck code :: _ =>
    match maybe_connection_error code with
    | some err => LoopResult.earlyErr err
    | none => LoopResult.breakOk BreakReason.connAckNoSubs
  | Event.pollErr e :: _ => LoopResult.breakOk (BreakReason.transportError e)
  | Event.subAck :: rest => clearLoopGo rest
  | Event.otherEvent :: rest => clearLoopGo rest

/-- How a run of `init_session` or `clear_session` ended. -/
inductive SessionExit where
  | ok
  | err (e : MqttError)
  /-- The finite event trace ended with the loop still polling;
  the function has not returned. -/
  | pending
  deriving DecidableEq, Repr

/-- Observable outcome of a run of `init_session` or `clear_session`:
whether a connection was attempted (an MQTT client and event loop were
created and polled), which subscribe requests were issued, whether
`disconnect` was called before returning, and the returned value. -/
structure SessionRun where
  connectionAttempted : Bool
  subscribes : List (List String)
  disconnected : Bool
  exit : SessionExit
  deriving DecidableEq, Repr

/-- The run rejected by the configuration check: no connection attempted,
no subscription issued, no disconnect, `Err(InvalidSessionConfig)`. -/
def invalidRun : SessionRun :=
  { connectionAttempted := false
    subscribes := []
    disconnected := false
    exit := SessionExit.err MqttError.invalidSessionConfig }

/-- `init_session` (session.rs lines 20-59) as a function of the
configuration, the finite trace of event-loop events, and whether the final
`disconnect` call fails (its result is discarded by the source:
`let _ = mqtt_client.disconnect().await`). -/
def init_session (config : Config) (events : List Event) (disconnectFails : Bool) :
    SessionRun :=
  if config.clean_session || config.session_name.isNone then
    invalidRun
  else
    let r := initLoopGo config.subscriptions events
    match r.2 with
    | LoopResult.breakOk _ =>
      { connectionAttempted := true
        subscribes := r.1
        disconnected := true
        exit := SessionExit.ok }
    | LoopResult.earlyErr e =>
      { connectionAttempted := true
        subscribes := r.1
        disconnected := false
        exit := SessionExit.err e }
    | LoopResult.pending =>
      { connectionAttempted := true
        subscribes := r.1
        disconnected := false
        exit := SessionExit.pending }

/-- `clear_session` (session.rs lines 71-99) as a function of the
configuration, the event trace, and whether the final discarded
`disconnect` call fails.  The clean-session flag of the options is forced
to `true` before connecting; the precondition only requires a session name. -/
def clear_session (config : Config) (events : List Event) (disconnectFails : Bool) :
    SessionRun :=
  if config.session_name.isNone then
    invalidRun
  else
    match clearLoopGo events with
    | LoopResult.breakOk _ =>
      { connectionAttempted := true
        subscribes := []
        disconnected := true
        exit := SessionExit.ok }
    | LoopResult.earlyErr e =>
      { connectionAttempted := true
        subscribes := []
        disconnected := false
        exit := SessionExit.err e }
    | LoopResult.pending =>
      { connectionAttempted := true
        subscribes := []
        disconnected := false
        exit := SessionExit.pending }

end Session

/-- A JSON value, restricted to the shapes the embedded payloads use:
strings, integers, and objects (field lists). -/
inductive JsonVal where
  | str (s : String)
  | num (n : Int)
  | obj (fields : List (String × JsonVal))

/-- First-match association lookup in a JSON object's field list. -/
def getField (k : String) : List (String × JsonVal) → Option JsonVal
  | [] => none
  | (k2, v) :: rest => if k2 = k then some v else getField k rest

/-- Modelled from the spec: `EntityTopicId` (in `tedge_api::mqtt_topics`,
not under the provided sources) is the "hierarchical identifier for a
device or service", four topic segments in the default scheme
`device/<device-id>/service/<service-id>` (services) or
`device/<device-id>//` (devices). -/
structure EntityTopicId where
  s1 : String
  s2 : String
  s3 : String
  s4 : String
  deriving DecidableEq, Repr

/-- The four topic segments of an entity topic identifier, in order. -/
def EntityTopicId.segments (e : EntityTopicId) : List String :=
  [e.s1, e.s2, e.s3, e.s4]

/-- Whether the character list `pat` occurs as a contiguous run in `s`. -/
def charsContain (pat : List Char) : List Char → Bool
  | [] => pat.isEmpty
  | c :: rest => pat.isPrefixOf (c :: rest) || charsContain pat rest

/-- `s.contains(pat)` of Rust strings: substring containment. -/
def strContains (s pat : String) : Bool :=
  charsContain pat.data s.data

namespace OpConverter

/-- Command status (`tedge_api::messages::CommandStatus`), serialized as
lowercase strings on the wire. -/
inductive CommandStatus where
  | init
  | scheduled
  | executing
  | successful
  | failed
  deriving DecidableEq, Repr

/-- The lowercase wire form of a command status. -/
def statusString : CommandStatus → String
  | CommandStatus.init => "init"
  | CommandStatus.scheduled => "scheduled"
  | CommandStatus.executing => "executing"
  | CommandStatus.successful => "successful"
  | CommandStatus.failed => "failed"

/-- Parse the lowercase wire form of a command status. -/
def parseStatus : String → Option CommandStatus
  | "init" => some CommandStatus.init
  | "scheduled" => some CommandStatus.scheduled
  | "executing" => some CommandStatus.executing
  | "successful" => some CommandStatus.successful
  | "failed" => some CommandStatus.failed
  | _ => none

/-- Payload of a restart command (`tedge_api::messages::RestartCommandPayload`):
a status and a reason, the reason defaulting to the empty string. -/
structure RestartCommandPayload where
  status : CommandStatus
  reason : String
  deriving DecidableEq, Repr

/-- A restart command (`tedge_api::RestartCommand`): target entity,
caller-chosen command id, and payload. -/
structure RestartCommand where
  target : EntityTopicId
  cmd_id : String
  payload : RestartCommandPayload
  deriving DecidableEq, Repr

/-- An MQTT message as the converter sees it: a topic (list of segments),
a JSON payload, and the retain flag. -/
structure MqttMessage where
  topic : List String
  payload : JsonVal
  retain : Bool

/-- Modelled from the spec: deserialization of a restart command payload
(status required, parsed from its lowercase string; `reason` optional,
defaulting to the empty string; any other shape is malformed). -/
def parseRestartPayload : JsonVal → Option RestartCommandPayload
  | JsonVal.obj fields =>
    match getField "status" fields with
    | some (JsonVal.str s) =>
      match parseStatus s with
      | some st =>
        match getField "reason" fields with
        | none => some { status := st, reason := "" }
        | some (JsonVal.str r) => some { status := st, reason := r }
        | some _ => none
      | none => none
    | _ => none
  | _ => none

/-- Topic of a specific command instance:
`<root>/<entity-path>/cmd/<operation>/<cmd-id>`. -/
def cmdTopic (root : String) (e : EntityTopicId) (op id : String) : List String :=
  root :: e.segments ++ ["cmd", op, id]

/-- Topic of the retained capability announcement:
`<root>/<entity-path>/cmd/<operation>` (no command id). -/
def capabilityTopic (root : String) (e : EntityTopicId) (op : String) : List String :=
  root :: e.segments ++ ["cmd", op]

/-- Modelled from the spec: parsing of a command-instance topic by the
topic router — `<root>/<entity-path>/cmd/<operation>/<cmd-id>` with a
four-segment entity path; anything else does not match. -/
def parseCmdTopic (root : String) : List String → Option (EntityTopicId × String × String)
  | [r, a, b, c, d, m, op, id] =>
    if r = root ∧ m = "cmd" then some (⟨a, b, c, d⟩, op, id) else none
  | _ => none

/-- Modelled from the spec: the inbound path of the operation converter
(`TedgeOperationConverter`, whose implementation is not under the provided
sources — only its tests are) for the restart operation: a message whose
topic matches the command pattern with operation `restart` and whose
payload deserializes is turned into a typed `RestartCommand`; malformed
topics and malformed payloads produce nothing. -/
def convertIncomingRestart (root : String) (msg : MqttMessage) : Option RestartCommand :=
  match parseCmdTopic root msg.topic with
  | some (e, op, id) =>
    if op = "restart" then
      (parseRestartPayload msg.payload).map
        (fun p => { target := e, cmd_id := id, payload := p })
    else none
  | none => none

/-- Modelled from the spec: serialization of a restart command payload —
the status as a lowercase string, plus an optional `reason` field on
failure (omitted when empty). -/
def serializeRestartPayload (p : RestartCommandPayload) : JsonVal :=
  JsonVal.obj
    (("status", JsonVal.str (statusString p.status)) ::
      (if p.reason = "" then [] else [("reason", JsonVal.str p.reason)]))

/-- Modelled from the spec: the outbound path of the operation converter
for the restart operation — serialize the typed response, compute the topic
from target, operation and command id, and publish (not retained). -/
def convertOutgoingRestart (root : String) (c : RestartCommand) : MqttMessage :=
  { topic := cmdTopic root c.target "restart" c.cmd_id
    payload := serializeRestartPayload c.payload
    retain := false }

/-- Modelled from the spec: the retained capability announcement published
when the converter actor starts — empty-object payload, retained flag set. -/
def capabilityMessage (root : String) (e : EntityTopicId) (op : String) : MqttMessage :=
  { topic := capabilityTopic root e op
    payload := JsonVal.obj []
    retain := true }

/-- The `status` field of a JSON object payload, if any. -/
def statusField : JsonVal → Option JsonVal
  | JsonVal.obj fields => getField "status" fields
  | _ => none

/-- One observable action of the converter actor, in emission order:
an MQTT publish, or a typed restart command sent on the restart mailbox. -/
inductive TraceItem where
  | pub (m : MqttMessage)
  | restartCmd (c : RestartCommand)

/-- The restart command of a trace item, if it is one. -/
def TraceItem.restartOf : TraceItem → Option RestartCommand
  | TraceItem.restartCmd c => some c
  | _ => none

/-- Modelled from the spec: the converter actor's run for the restart
operation it serves — on startup it first publishes the retained restart
capability announcement for the device it governs, then processes the
inbound MQTT messages in order, forwarding each decoded restart command on
the restart mailbox. -/
def converterRun (root : String) (device : EntityTopicId) (inputs : List MqttMessage) :
    List TraceItem :=
  TraceItem.pub (capabilityMessage root device "restart") ::
    inputs.filterMap (fun m => (convertIncomingRestart root m).map TraceItem.restartCmd)

end OpConverter

namespace ServiceMonitor

/-- The SmartREST publish topic (`SMARTREST_PUBLISH_TOPIC` in
`c8y_api::smartrest::topic`). -/
def SMARTREST_PUBLISH_TOPIC : String := "c8y/s/us"

/-- Default service type used when both the payload's type and the
configured default are empty (`DEFAULT_SERVICE_TYPE` in service_monitor.rs). -/
def DEFAULT_SERVICE_TYPE : String := "service"

/-- MQTT quality of service (`tedge_mqtt_ext::QoS`). -/
inductive QoS where
  | atMostOnce
  | atLeastOnce
  | exactlyOnce
  deriving DecidableEq, Repr

/-- An outgoing MQTT message of the mapper (`tedge_mqtt_ext::Message`):
topic name, payload text, quality of service and retain flag. -/
structure Message where
  topic : String
  payload : String
  qos : QoS
  retain : Bool
  deriving DecidableEq, Repr

/-- The health status record deserialized from an inbound health message
(`HealthStatus` in service_monitor.rs): a service type (serde field
`type`, defaulting to the empty string) and a status (defaulting to
`unknown`). -/
structure HealthStatus where
  service_type : String
  status : String
  deriving DecidableEq, Repr

/-- serde deserialization of `HealthStatus` from a JSON value: the value
must be an object; `type` and `status` must be strings when present and
take their serde defaults when absent; unknown fields are ignored. -/
def parseHealthStatus : JsonVal → Option HealthStatus
  | JsonVal.obj fields =>
    match getField "type" fields, getField "status" fields with
    | some (JsonVal.str t), some (JsonVal.str s) => some ⟨t, s⟩
    | some (JsonVal.str t), none => some ⟨t, "unknown"⟩
    | none, some (JsonVal.str s) => some ⟨"", s⟩
    | none, none => some ⟨"", "unknown"⟩
    | _, _ => none
  | _ => none

/-- Modelled from the spec: `EntityTopicId::default_service_name` (in
`tedge_api::mqtt_topics`, not under the provided sources) — the service
identifier of an entity in the default scheme
`device/<device-id>/service/<service-id>`, when it is one. -/
def default_service_name (e : EntityTopicId) : Option String :=
  if e.s1 = "device" ∧ e.s3 = "service" then some e.s4 else none

/-- Modelled from the spec: `EntityTopicId::default_parent_identifier` —
a service entity carries a back-reference to its parent device
`device/<device-id>//`. -/
def default_parent_identifier (e : EntityTopicId) : Option EntityTopicId :=
  if e.s1 = "device" ∧ e.s3 = "service" then some ⟨"device", e.s2, "", ""⟩
  else none

/-- Modelled from the spec: `EntityTopicId::is_default_child_device` —
whether the entity is a child device `device/<device-id>//` with a
device id other than `main`. -/
def is_default_child_device (e : EntityTopicId) : Bool :=
  e.s1 = "device" ∧ e.s2 ≠ "main" ∧ e.s3 = "" ∧ e.s4 = ""

/-- Modelled from the spec: `EntityTopicId::default_device_name` — the
device id of an entity in the default device scheme `device/<device-id>//`. -/
def default_device_name (e : EntityTopicId) : Option String :=
  if e.s1 = "device" ∧ e.s3 = "" ∧ e.s4 = "" then some e.s2 else none

/-- Modelled from the spec: `sanitize_for_smartrest` (in
`c8y_api::smartrest::message`, not under the provided sources).  The spec
does not constrain sanitization; it is modelled as the identity — the
claims checked here do not depend on it. -/
def sanitize_for_smartrest (input : String) : String := input

/-- `service_monitor_status_message` (service_monitor.rs lines 94-123):
the SmartREST 102 service-monitoring message for a device or a child
device. -/
def service_monitor_status_message (device_name daemon_name status service_type : String)
    (child_id : Option String) : Message :=
  let sanitized_status := sanitize_for_smartrest status
  let sanitized_type := sanitize_for_smartrest service_type
  match child_id with
  | some cid =>
    { topic := SMARTREST_PUBLISH_TOPIC ++ "/" ++ cid
      payload := "102," ++ device_name ++ "_" ++ cid ++ "_" ++ daemon_name ++ ",\"" ++
        sanitized_type ++ "\"," ++ daemon_name ++ ",\"" ++ sanitized_status ++ "\""
      qos := QoS.atLeastOnce
      retain := false }
  | none =>
    { topic := SMARTREST_PUBLISH_TOPIC
      payload := "102," ++ device_name ++ "_" ++ daemon_name ++ ",\"" ++
        sanitized_type ++ "\"," ++ daemon_name ++ ",\"" ++ sanitized_status ++ "\""
      qos := QoS.atLeastOnce
      retain := false }

/-- The health status effectively used by `convert_health_status_message`
(service_monitor.rs lines 56-78): when the inbound payload is not readable
as `HealthStatus` the fallback record (configured default type, status
`unknown`) is used — the source's `default_health_status` fallback string
is itself never valid JSON, so the unreadable-payload and unparsable-JSON
paths coincide; then an empty status becomes `unknown`, and an empty type
becomes the configured default, or `service` when that default is empty.
The inbound payload is `some j` when the message bytes are valid UTF-8 and
parse as the JSON value `j`, and `none` otherwise. -/
def effectiveHealthStatus (payload : Option JsonVal) (default_service_type : String) :
    HealthStatus :=
  let hs0 :=
    match payload.bind parseHealthStatus with
    | none => { service_type := default_service_type, status := "unknown" }
    | some hs => hs
  let hs1 := if hs0.status = "" then { hs0 with status := "unknown" } else hs0
  if hs1.service_type = "" then
    { hs1 with
        service_type :=
          if default_service_type = "" then DEFAULT_SERVICE_TYPE else default_service_type }
  else hs1

/-- The `child_id` computed by `convert_health_status_message`
(service_monitor.rs lines 45-54): the parent's device name when the parent
is a child device; `none` (inner option) otherwise.  The outer option
models the `expect` on the parent's device name. -/
def child_id_of (parent : EntityTopicId) : Option (Option String) :=
  if is_default_child_device parent then (default_device_name parent).map some
  else some none

/-- `convert_health_status_message` (service_monitor.rs lines 29-92):
translate a health-status message of a service entity into SmartREST
service-monitoring messages.  The outer option models the `expect` panics
on entities outside the default service scheme. -/
def convert_health_status_message (entity : EntityTopicId) (payload : Option JsonVal)
    (device_name default_service_type : String) : Option (List Message) := do
  let service_name ← default_service_name entity
  let parent ← default_parent_identifier entity
  let child_id ← child_id_of parent
  if strContains service_name "bridge" then
    pure []
  else
    let hs := effectiveHealthStatus payload default_service_type
    pure [service_monitor_status_message device_name service_name hs.status hs.service_type
      child_id]

end ServiceMonitor

namespace Session

/-- Helper: the `init_session` event loop only executes `return Err` with a
broker-reported CONNACK rejection carrying a non-success code. -/
theorem initLoopGo_earlyErr (filters : List String) (ev : List Event) (e : MqttError)
    (h : (initLoopGo filters ev).2 = LoopResult.earlyErr e) :
    ∃ code, code ≠ ConnectReturnCode.success ∧ e = MqttError.connectionRejected code := by
  induction ev with
  | nil => simp [initLoopGo] at h
  | cons x rest ih =>
    cases x with
    | connAck code =>
      by_cases hc : code = ConnectReturnCode.success
      · subst hc
        by_cases hf : filters.isEmpty
        · simp [initLoopGo, maybe_connection_error, hf] at h
        · simp [initLoopGo, maybe_connection_error, hf] at h
          exact ih h
      · simp [initLoopGo, maybe_connection_error, hc] at h
        exact ⟨code, hc, h.symm⟩
    | subAck => simp [initLoopGo] at h
    | pollErr e2 =>
      match e2 with
      | ConnectionError.connectionRefused ConnectReturnCode.success =>
        simp [initLoopGo] at h
        exact ih h
      | ConnectionError.connectionRefused ConnectReturnCode.refusedProtocolVersion =>
        simp [initLoopGo] at h
      | ConnectionError.connectionRefused ConnectReturnCode.badClientId =>
        simp [initLoopGo] at h
      | ConnectionError.connectionRefused ConnectReturnCode.serviceUnavailable =>
        simp [initLoopGo] at h
      | ConnectionError.connectionRefused ConnectReturnCode.badUserNamePassword =>
        simp [initLoopGo] at h
      | ConnectionError.connectionRefused ConnectReturnCode.notAuthorized =>
        simp [initLoopGo] at h
      | ConnectionError.other k => simp [initLoopGo] at h
    | otherEvent =>
      simp [initLoopGo] at h
      exact ih h

/-- Helper: the `clear_session` event loop only executes `return Err` with a
broker-reported CONNACK rejection carrying a non-success code. -/
theorem clearLoopGo_earlyErr (ev : List Event) (e : MqttError)
    (h : clearLoopGo ev = LoopResult.earlyErr e) :
    ∃ code, code ≠ ConnectReturnCode.success ∧ e = MqttError.connectionRejected code := by
  induction ev with
  | nil => simp [clearLoopGo] at h
  | cons x rest ih =>
    cases x with
    | connAck code =>
      by_cases hc : code = ConnectReturnCode.success
      · subst hc
        simp [clearLoopGo, maybe_connection_error] at h
      · simp [clearLoopGo, maybe_connection_error, hc] at h
        exact ⟨code, hc, h.symm⟩
    | subAck =>
      simp [clearLoopGo] at h
      exact ih h
    | pollErr e2 => simp [clearLoopGo] at h
    | otherEvent =>
      simp [clearLoopGo] at h
      exact ih h

/-- Helper: a transport error other than connection-refused-with-success
breaks the `init_session` event loop at once. -/
theorem initLoopGo_pollErr (filters : List String) (ev : List Event) (e : ConnectionError)
    (h : e ≠ ConnectionError.connectionRefused ConnectReturnCode.success) :
    initLoopGo filters (Event.pollErr e :: ev) =
      ([], LoopResult.breakOk (BreakReason.transportError e)) := by
  match e with
  | ConnectionError.connectionRefused ConnectReturnCode.success => exact absurd rfl h
  | ConnectionError.connectionRefused ConnectReturnCode.refusedProtocolVersion => rfl
  | ConnectionError.connectionRefused ConnectReturnCode.badClientId => rfl
  | ConnectionError.connectionRefused ConnectReturnCode.serviceUnavailable => rfl
  | ConnectionError.connectionRefused ConnectReturnCode.badUserNamePassword => rfl
  | ConnectionError.connectionRefused ConnectReturnCode.notAuthorized => rfl
  | ConnectionError.other k => rfl

end Session

namespace Session

/-- Helper: a successful CONNACK with a non-empty filter set issues one
subscribe-many call and keeps the `init_session` loop running. -/
theorem initLoopGo_connAck_success_cons (filters : List String) (ev : List Event)
    (hne : filters ≠ []) :
    initLoopGo filters (Event.connAck ConnectReturnCode.success :: ev)
      = (filters :: (initLoopGo filters ev).1, (initLoopGo filters ev).2) := by
  cases filters with
  | nil => exact absurd rfl hne
  | cons a as => rfl

/-- Helper: on a trace of only benign events (other events, or the
tolerated connection-refused-with-success error) the `init_session` loop
neither subscribes nor exits. -/
theorem initLoopGo_benign_pending (filters : List String) (ev : List Event)
    (h : ∀ x ∈ ev, x = Event.otherEvent
      ∨ x = Event.pollErr (ConnectionError.connectionRefused ConnectReturnCode.success)) :
    initLoopGo filters ev = ([], LoopResult.pending) := by
  induction ev with
  | nil => rfl
  | cons x rest ih =>
    rcases h x (by simp) with hx | hx <;> subst hx <;>
      simpa [initLoopGo] using ih (fun y hy => h y (by simp [hy]))

/-- Helper: after benign events, a SUBACK terminates the `init_session`
loop via `break`. -/
theorem initLoopGo_benign_subAck (filters : List String) (ev : List Event)
    (h : ∀ x ∈ ev, x = Event.otherEvent
      ∨ x = Event.pollErr (ConnectionError.connectionRefused ConnectReturnCode.success)) :
    initLoopGo filters (ev ++ [Event.subAck])
      = ([], LoopResult.breakOk BreakReason.subAck) := by
  induction ev with
  | nil => rfl
  | cons x rest ih =>
    rcases h x (by simp) with hx | hx <;> subst hx <;>
      simpa [initLoopGo] using ih (fun y hy => h y (by simp [hy]))

end Session

/-- C1 counterexample: with `clean_session = true` and a session name set,
`clear_session` does not fail with `InvalidSessionConfig`; it attempts the
connection and (on a successful CONNACK) returns `Ok`. -/
theorem C1_counterexample :
    (Session.clear_session ⟨some "tedge-agent", true, [], 10⟩
        [Session.Event.connAck Session.ConnectReturnCode.success] false).exit
      ≠ Session.SessionExit.err Session.MqttError.invalidSessionConfig
    ∧ (Session.clear_session ⟨some "tedge-agent", true, [], 10⟩
        [Session.Event.connAck Session.ConnectReturnCode.success] false).connectionAttempted
      = true
    ∧ (Session.clear_session ⟨some "tedge-agent", true, [], 10⟩
        [Session.Event.connAck Session.ConnectReturnCode.success] false).exit
      = Session.SessionExit.ok := by
  decide

/-- C1 (amended): for every config, `init_session` fails with
`InvalidSessionConfig` before any connection is attempted when
`clean_session == true` or `session_name == None`; `clear_session` does so
only when `session_name == None` (its clean flag is irrelevant). -/
theorem C1_session_config_check (c : Session.Config) (ev : List Session.Event) (d : Bool) :
    (c.clean_session = true ∨ c.session_name = none →
      Session.init_session c ev d = Session.invalidRun)
    ∧ (c.session_name = none → Session.clear_session c ev d = Session.invalidRun) := by
  constructor
  · rintro (h | h) <;> simp [Session.init_session, h]
  · intro h
    simp [Session.clear_session, h]

/-- C1 witness. -/
theorem C1_session_config_check_witness :
    Session.init_session ⟨none, false, [], 10⟩ [] false = Session.invalidRun
    ∧ Session.clear_session ⟨none, false, [], 10⟩ [] false = Session.invalidRun := by
  have h := C1_session_config_check ⟨none, false, [], 10⟩ [] false
  exact ⟨h.1 (Or.inr rfl), h.2 rfl⟩

/-- C2 counterexample: a run of `init_session` that passes the config check
and receives a CONNACK with a broker-reported rejection returns `Err`
without disconnecting. -/
theorem C2_counterexample :
    (Session.init_session ⟨some "s", false, ["te/a"], 10⟩
        [Session.Event.connAck Session.ConnectReturnCode.badClientId] false).connectionAttempted
      = true
    ∧ (Session.init_session ⟨some "s", false, ["te/a"], 10⟩
        [Session.Event.connAck Session.ConnectReturnCode.badClientId] false).exit
      = Session.SessionExit.err
          (Session.MqttError.connectionRejected Session.ConnectReturnCode.badClientId)
    ∧ (Session.init_session ⟨some "s", false, ["te/a"], 10⟩
        [Session.Event.connAck Session.ConnectReturnCode.badClientId] false).disconnected
      = false := by
  decide

/-- C2 (amended): every execution of `init_session` or `clear_session` that
gets past the config check and whose event loop exits via `break` (normal
completion, including transport-error aborts) disconnects the client and
returns `Ok`; executions that return early with an `Err` (a broker-reported
CONNACK rejection) skip the disconnect; the discarded outcome of the
disconnect call never changes the function's result. -/
theorem C2_disconnect_on_break (c : Session.Config) (ev : List Session.Event) (d : Bool) :
    (∀ why, (Session.initLoopGo c.subscriptions ev).2 = Session.LoopResult.breakOk why →
      c.clean_session = false → c.session_name.isSome →
      (Session.init_session c ev d).disconnected = true
        ∧ (Session.init_session c ev d).exit = Session.SessionExit.ok)
    ∧ (∀ why, Session.clearLoopGo ev = Session.LoopResult.breakOk why →
        c.session_name.isSome →
        (Session.clear_session c ev d).disconnected = true
          ∧ (Session.clear_session c ev d).exit = Session.SessionExit.ok)
    ∧ Session.init_session c ev true = Session.init_session c ev false
    ∧ Session.clear_session c ev true = Session.clear_session c ev false := by
  refine ⟨?_, ?_, rfl, rfl⟩
  · intro why hwhy h1 h2
    obtain ⟨n, hn⟩ := Option.isSome_iff_exists.mp h2
    simp [Session.init_session, h1, hn, hwhy]
  · intro why hwhy h2
    obtain ⟨n, hn⟩ := Option.isSome_iff_exists.mp h2
    simp [Session.clear_session, hn, hwhy]

/-- C2 witness. -/
theorem C2_disconnect_on_break_witness :
    (Session.init_session ⟨some "s", false, [], 10⟩
        [Session.Event.connAck Session.ConnectReturnCode.success] false).disconnected = true
    ∧ (Session.init_session ⟨some "s", false, [], 10⟩
        [Session.Event.connAck Session.ConnectReturnCode.success] false).exit
      = Session.SessionExit.ok := by
  exact (C2_disconnect_on_break ⟨some "s", false, [], 10⟩
    [Session.Event.connAck Session.ConnectReturnCode.success] false).1
    Session.BreakReason.connAckNoSubs rfl rfl rfl

/-- C3 counterexample: a broker-rejected connection (CONNACK with a
non-success code) is propagated to the caller of `init_session` as an
`Err`; the operation does not return successfully. -/
theorem C3_counterexample :
    (Session.init_session ⟨some "s", false, ["te/a"], 10⟩
        [Session.Event.connAck Session.ConnectReturnCode.badUserNamePassword] false).exit
      = Session.SessionExit.err
          (Session.MqttError.connectionRejected Session.ConnectReturnCode.badUserNamePassword)
    ∧ (Session.init_session ⟨some "s", false, ["te/a"], 10⟩
        [Session.Event.connAck Session.ConnectReturnCode.badUserNamePassword] false).exit
      ≠ Session.SessionExit.ok := by
  decide

/-- C3 (amended): transport-level errors raised while polling the event
loop are not propagated — they are logged and the operation returns `Ok`;
the only errors `init_session` and `clear_session` return past the config
check are broker-reported CONNACK rejections with a non-success code. -/
theorem C3_poll_errors_not_propagated (c : Session.Config) (ev : List Session.Event) (d : Bool) :
    (∀ e, (Session.initLoopGo c.subscriptions ev).2
        = Session.LoopResult.breakOk (Session.BreakReason.transportError e) →
      c.clean_session = false → c.session_name.isSome →
      (Session.init_session c ev d).exit = Session.SessionExit.ok)
    ∧ (∀ e, Session.clearLoopGo ev
          = Session.LoopResult.breakOk (Session.BreakReason.transportError e) →
        c.session_name.isSome →
        (Session.clear_session c ev d).exit = Session.SessionExit.ok)
    ∧ (∀ err, (Session.init_session c ev d).exit = Session.SessionExit.err err →
        err = Session.MqttError.invalidSessionConfig
          ∨ ∃ code, code ≠ Session.ConnectReturnCode.success
              ∧ err = Session.MqttError.connectionRejected code)
    ∧ (∀ err, (Session.clear_session c ev d).exit = Session.SessionExit.err err →
        err = Session.MqttError.invalidSessionConfig
          ∨ ∃ code, code ≠ Session.ConnectReturnCode.success
              ∧ err = Session.MqttError.connectionRejected code) := by
  refine ⟨?_, ?_, ?_, ?_⟩
  · intro e he h1 h2
    obtain ⟨n, hn⟩ := Option.isSome_iff_exists.mp h2
    simp [Session.init_session, h1, hn, he]
  · intro e he h2
    obtain ⟨n, hn⟩ := Option.isSome_iff_exists.mp h2
    simp [Session.clear_session, hn, he]
  · intro err herr
    by_cases h1 : (c.clean_session || c.session_name.isNone) = true
    · left
      simp [Session.init_session, h1, Session.invalidRun] at herr
      exact herr.symm
    · rcases hr : (Session.initLoopGo c.subscriptions ev).2 with why | e | _ <;>
        simp [Session.init_session, h1, hr] at herr
      right
      obtain ⟨code, hc, hec⟩ := Session.initLoopGo_earlyErr c.subscriptions ev e hr
      exact ⟨code, hc, herr.symm ▸ hec⟩
  · intro err herr
    by_cases h1 : c.session_name.isNone = true
    · left
      simp [Session.clear_session, h1, Session.invalidRun] at herr
      exact herr.symm
    · rcases hr : Session.clearLoopGo ev with why | e | _ <;>
        simp [Session.clear_session, h1, hr] at herr
      right
      obtain ⟨code, hc, hec⟩ := Session.clearLoopGo_earlyErr ev e hr
      exact ⟨code, hc, herr.symm ▸ hec⟩

/-- C3 witness. -/
theorem C3_poll_errors_not_propagated_witness :
    (Session.init_session ⟨some "s", false, ["te/a"], 10⟩
        [Session.Event.pollErr (Session.ConnectionError.other "network failure")] false).exit
      = Session.SessionExit.ok
    ∧ (Session.clear_session ⟨some "s", false, ["te/a"], 10⟩
        [Session.Event.pollErr (Session.ConnectionError.other "network failure")] false).exit
      = Session.SessionExit.ok := by
  have h := C3_poll_errors_not_propagated ⟨some "s", false, ["te/a"], 10⟩
    [Session.Event.pollErr (Session.ConnectionError.other "network failure")] false
  exact ⟨h.1 (Session.ConnectionError.other "network failure") rfl rfl rfl,
    h.2.1 (Session.ConnectionError.other "network failure") rfl rfl⟩

/-- C4: in `init_session`'s event loop, the transport error
connection-refused-with-success is ignored (the run is the same as without
that event); every other transport error ends the loop at once and the
function still returns `Ok` after disconnecting, issuing no subscribe. -/
theorem C4_transport_error_handling (c : Session.Config) (ev : List Session.Event)
    (e : Session.ConnectionError) (d : Bool) :
    Session.init_session c
        (Session.Event.pollErr
          (Session.ConnectionError.connectionRefused Session.ConnectReturnCode.success) :: ev) d
      = Session.init_session c ev d
    ∧ (e ≠ Session.ConnectionError.connectionRefused Session.ConnectReturnCode.success →
        c.clean_session = false → c.session_name.isSome →
        Session.init_session c (Session.Event.pollErr e :: ev) d
          = { connectionAttempted := true, subscribes := [], disconnected := true,
              exit := Session.SessionExit.ok }) := by
  constructor
  · rfl
  · intro he h1 h2
    obtain ⟨n, hn⟩ := Option.isSome_iff_exists.mp h2
    simp [Session.init_session, h1, hn, Session.initLoopGo_pollErr _ _ _ he]

/-- C4 witness. -/
theorem C4_transport_error_handling_witness :
    Session.init_session ⟨some "s", false, ["te/b"], 5⟩
        [Session.Event.pollErr
          (Session.ConnectionError.connectionRefused Session.ConnectReturnCode.success)] false
      = Session.init_session ⟨some "s", false, ["te/b"], 5⟩ [] false
    ∧ Session.init_session ⟨some "s", false, ["te/b"], 5⟩
        [Session.Event.pollErr (Session.ConnectionError.other "io")] false
      = { connectionAttempted := true, subscribes := [], disconnected := true,
          exit := Session.SessionExit.ok } := by
  have h := C4_transport_error_handling ⟨some "s", false, ["te/b"], 5⟩ []
    (Session.ConnectionError.other "io") false
  exact ⟨h.1, h.2 (by decide) rfl rfl⟩

/-- C5: past the config check, an empty subscription filter set makes
`init_session` terminate its loop immediately on a successful CONNACK with
no subscribe issued, returning `Ok` whatever the rest of the trace holds; a
non-empty filter set makes it issue one multi-topic subscribe with exactly
the configured filters, and (absent fatal transport errors) the loop does
not terminate until a SUBACK arrives, after which the function returns
`Ok`. -/
theorem C5_subscription_protocol (c : Session.Config) (ev : List Session.Event) (d : Bool)
    (h1 : c.clean_session = false) (h2 : c.session_name.isSome) :
    (c.subscriptions = [] →
      Session.init_session c
          (Session.Event.connAck Session.ConnectReturnCode.success :: ev) d
        = { connectionAttempted := true, subscribes := [], disconnected := true,
            exit := Session.SessionExit.ok })
    ∧ (c.subscriptions ≠ [] →
        (Session.init_session c
            (Session.Event.connAck Session.ConnectReturnCode.success :: ev) d).subscribes.head?
          = some c.subscriptions
        ∧ ((∀ x ∈ ev, x = Session.Event.otherEvent
              ∨ x = Session.Event.pollErr
                  (Session.ConnectionError.connectionRefused
                    Session.ConnectReturnCode.success)) →
            (Session.init_session c
                (Session.Event.connAck Session.ConnectReturnCode.success :: ev) d).exit
              = Session.SessionExit.pending
            ∧ Session.init_session c
                  (Session.Event.connAck Session.ConnectReturnCode.success ::
                    (ev ++ [Session.Event.subAck])) d
                = { connectionAttempted := true, subscribes := [c.subscriptions],
                    disconnected := true, exit := Session.SessionExit.ok })) := by
  obtain ⟨n, hn⟩ := Option.isSome_iff_exists.mp h2
  constructor
  · intro hs
    have hstep : Session.initLoopGo c.subscriptions
        (Session.Event.connAck Session.ConnectReturnCode.success :: ev)
        = ([], Session.LoopResult.breakOk Session.BreakReason.connAckNoSubs) := by
      rw [hs]; rfl
    simp [Session.init_session, h1, hn, hstep]
  · intro hs
    have hstep := Session.initLoopGo_connAck_success_cons c.subscriptions ev hs
    constructor
    · rcases hr : (Session.initLoopGo c.subscriptions ev).2 with why | e | _ <;>
        simp [Session.init_session, h1, hn, hstep, hr]
    · intro hben
      have hp := Session.initLoopGo_benign_pending c.subscriptions ev hben
      have hq := Session.initLoopGo_benign_subAck c.subscriptions ev hben
      have hstep2 := Session.initLoopGo_connAck_success_cons c.subscriptions
        (ev ++ [Session.Event.subAck]) hs
      constructor
      · simp [Session.init_session, h1, hn, hstep, hp]
      · simp [Session.init_session, h1, hn, hstep2, hq]

/-- C5 witness. -/
theorem C5_subscription_protocol_witness :
    Session.init_session ⟨some "s", false, [], 10⟩
        [Session.Event.connAck Session.ConnectReturnCode.success,
          Session.Event.otherEvent] false
      = { connectionAttempted := true, subscribes := [], disconnected := true,
          exit := Session.SessionExit.ok }
    ∧ (Session.init_session ⟨some "s", false, ["te/a", "te/b"], 10⟩
        [Session.Event.connAck Session.ConnectReturnCode.success,
          Session.Event.otherEvent] false).exit
      = Session.SessionExit.pending
    ∧ Session.init_session ⟨some "s", false, ["te/a", "te/b"], 10⟩
        [Session.Event.connAck Session.ConnectReturnCode.success,
          Session.Event.otherEvent, Session.Event.subAck] false
      = { connectionAttempted := true, subscribes := [["te/a", "te/b"]],
          disconnected := true, exit := Session.SessionExit.ok } := by
  have ha := (C5_subscription_protocol ⟨some "s", false, [], 10⟩
    [Session.Event.otherEvent] false rfl rfl).1 rfl
  have hb := (C5_subscription_protocol ⟨some "s", false, ["te/a", "te/b"], 10⟩
    [Session.Event.otherEvent] false rfl rfl).2 (by decide)
  have hc := hb.2 (by intro x hx; simp at hx; subst hx; exact Or.inl rfl)
  exact ⟨ha, hc.1, hc.2⟩

/-- C6: on the MQTT message for entity `device/child-foo//`, operation
`restart`, command id `random`, with payload carrying status `init`, the
converter run emits exactly one internal restart command on the restart
mailbox: target `device/child-foo//`, command id `random`, status `Init`
(and the empty default reason). -/
theorem C6_incoming_restart_request :
    (OpConverter.converterRun "te" ⟨"device", "child-foo", "", ""⟩
        [{ topic := ["te", "device", "child-foo", "", "", "cmd", "restart", "random"],
           payload := JsonVal.obj [("status", JsonVal.str "init")],
           retain := false }]).filterMap OpConverter.TraceItem.restartOf
      = [{ target := ⟨"device", "child-foo", "", ""⟩, cmd_id := "random",
           payload := { status := OpConverter.CommandStatus.init, reason := "" } }] := by
  rfl

/-- C7: for every target entity and command id, the converter's outbound
path for a restart response with status `Executing` publishes on the topic
`te/<entity>/cmd/restart/<cmd-id>` a payload whose `status` field is the
string `executing`. -/
theorem C7_outgoing_restart_response (e : EntityTopicId) (x reason : String) :
    (OpConverter.convertOutgoingRestart "te"
        { target := e, cmd_id := x,
          payload := { status := OpConverter.CommandStatus.executing,
                       reason := reason } }).topic
      = ["te", e.s1, e.s2, e.s3, e.s4, "cmd", "restart", x]
    ∧ OpConverter.statusField
        (OpConverter.convertOutgoingRestart "te"
          { target := e, cmd_id := x,
            payload := { status := OpConverter.CommandStatus.executing,
                         reason := reason } }).payload
      = some (JsonVal.str "executing") := by
  exact ⟨rfl, rfl⟩

/-- C8: on startup for entity `device/child//` serving `restart`, the
converter's trace begins with the retained capability announcement on
`te/device/child///cmd/restart` with empty-object payload, before any
processing of the inbound messages; every restart command in the trace
occurs at a strictly later position. -/
theorem C8_capability_announced_first (inputs : List OpConverter.MqttMessage) :
    OpConverter.converterRun "te" ⟨"device", "child", "", ""⟩ inputs
      = OpConverter.TraceItem.pub
          (OpConverter.capabilityMessage "te" ⟨"device", "child", "", ""⟩ "restart") ::
          inputs.filterMap
            (fun m => (OpConverter.convertIncomingRestart "te" m).map
              OpConverter.TraceItem.restartCmd)
    ∧ (OpConverter.capabilityMessage "te" ⟨"device", "child", "", ""⟩ "restart").topic
      = ["te", "device", "child", "", "", "cmd", "restart"]
    ∧ (OpConverter.capabilityMessage "te" ⟨"device", "child", "", ""⟩ "restart").retain
      = true
    ∧ (OpConverter.capabilityMessage "te" ⟨"device", "child", "", ""⟩ "restart").payload
      = JsonVal.obj []
    ∧ ∀ i c,
        (OpConverter.converterRun "te" ⟨"device", "child", "", ""⟩ inputs).get? i
          = some (OpConverter.TraceItem.restartCmd c) → 1 ≤ i := by
  refine ⟨rfl, rfl, rfl, rfl, ?_⟩
  intro i c h
  match i with
  | 0 => simp [OpConverter.converterRun] at h
  | j + 1 => exact Nat.succ_le_succ (Nat.zero_le j)

/-- C8 witness. -/
theorem C8_capability_announced_first_witness :
    OpConverter.converterRun "te" ⟨"device", "child", "", ""⟩
        [{ topic := ["te", "device", "child", "", "", "cmd", "restart", "xyz"],
           payload := JsonVal.obj [("status", JsonVal.str "init")],
           retain := false }]
      = [OpConverter.TraceItem.pub
          (OpConverter.capabilityMessage "te" ⟨"device", "child", "", ""⟩ "restart"),
         OpConverter.TraceItem.restartCmd
          { target := ⟨"device", "child", "", ""⟩, cmd_id := "xyz",
            payload := { status := OpConverter.CommandStatus.init, reason := "" } }]
    ∧ (1 : Nat) ≤ 1 := by
  have h := C8_capability_announced_first
    [{ topic := ["te", "device", "child", "", "", "cmd", "restart", "xyz"],
       payload := JsonVal.obj [("status", JsonVal.str "init")],
       retain := false }]
  refine ⟨?_, ?_⟩
  · rw [h.1]; rfl
  · exact h.2.2.2.2 1
      { target := ⟨"device", "child", "", ""⟩, cmd_id := "xyz",
        payload := { status := OpConverter.CommandStatus.init, reason := "" } } rfl

/-- C9: for every health-status message of a service entity whose service
name contains the substring `bridge`, `convert_health_status_message`
produces no message; for every other service entity it produces exactly
one. -/
theorem C9_bridge_services_filtered (e : EntityTopicId) (payload : Option JsonVal)
    (dn dst svc : String) (h : ServiceMonitor.default_service_name e = some svc) :
    (ServiceMonitor.convert_health_status_message e payload dn dst).map List.length
      = some (if strContains svc "bridge" then 0 else 1) := by
  obtain ⟨a, b, c2, d2⟩ := e
  by_cases hc : a = "device" ∧ c2 = "service"
  · obtain ⟨ha, hcc⟩ := hc
    subst ha; subst hcc
    simp [ServiceMonitor.default_service_name] at h
    subst h
    by_cases hch : ServiceMonitor.is_default_child_device ⟨"device", b, "", ""⟩ = true <;>
      by_cases hbr : strContains d2 "bridge" = true <;>
        simp [ServiceMonitor.convert_health_status_message,
          ServiceMonitor.default_service_name, ServiceMonitor.default_parent_identifier,
          ServiceMonitor.child_id_of, ServiceMonitor.default_device_name, hch, hbr]
  · simp [ServiceMonitor.default_service_name, hc] at h

/-- C9 witness. -/
theorem C9_bridge_services_filtered_witness :
    (ServiceMonitor.convert_health_status_message
        ⟨"device", "main", "service", "tedge-agent"⟩ none "test-device" "service").map
        List.length
      = some 1
    ∧ (ServiceMonitor.convert_health_status_message
        ⟨"device", "main", "service", "mosquitto-c8y-bridge"⟩ none "test-device"
        "service").map List.length
      = some 0 := by
  have h1 := C9_bridge_services_filtered ⟨"device", "main", "service", "tedge-agent"⟩
    none "test-device" "service" "tedge-agent" rfl
  have h2 := C9_bridge_services_filtered
    ⟨"device", "main", "service", "mosquitto-c8y-bridge"⟩
    none "test-device" "service" "mosquitto-c8y-bridge" rfl
  constructor
  · rw [h1]; decide
  · rw [h2]; decide

/-- C10: in the health status effectively used by
`convert_health_status_message`, an unreadable payload yields status
`unknown` (and the configured default type, or `service` when that default
is empty); a parsed payload with an empty status yields status `unknown`;
a parsed payload with an empty type yields the configured default type, or
`service` when that default is empty. -/
theorem C10_health_status_defaults (payload : Option JsonVal) (dst : String) :
    (payload.bind ServiceMonitor.parseHealthStatus = none →
      (ServiceMonitor.effectiveHealthStatus payload dst).status = "unknown"
      ∧ (ServiceMonitor.effectiveHealthStatus payload dst).service_type
        = (if dst = "" then "service" else dst))
    ∧ (∀ hs, payload.bind ServiceMonitor.parseHealthStatus = some hs →
        (hs.status = "" →
          (ServiceMonitor.effectiveHealthStatus payload dst).status = "unknown")
        ∧ (hs.service_type = "" →
            (ServiceMonitor.effectiveHealthStatus payload dst).service_type
              = (if dst = "" then "service" else dst))) := by
  constructor
  · intro h
    by_cases hd : dst = "" <;>
      simp [ServiceMonitor.effectiveHealthStatus, h, hd,
        ServiceMonitor.DEFAULT_SERVICE_TYPE]
  · intro hs h
    constructor
    · intro hstat
      by_cases hty2 : hs.service_type = "" <;>
        simp [ServiceMonitor.effectiveHealthStatus, h, hstat, hty2]
    · intro hty
      by_cases hstat : hs.status = "" <;> by_cases hd : dst = "" <;>
        simp [ServiceMonitor.effectiveHealthStatus, h, hstat, hty, hd,
          ServiceMonitor.DEFAULT_SERVICE_TYPE]

/-- C10 witness. -/
theorem C10_health_status_defaults_witness :
    (ServiceMonitor.effectiveHealthStatus
        (some (JsonVal.obj [("type", JsonVal.str ""), ("status", JsonVal.str "")]))
        "").status
      = "unknown"
    ∧ (ServiceMonitor.effectiveHealthStatus
        (some (JsonVal.obj [("type", JsonVal.str ""), ("status", JsonVal.str "")]))
        "").service_type
      = "service"
    ∧ (ServiceMonitor.effectiveHealthStatus none "systemd").status = "unknown" := by
  have h1 := (C10_health_status_defaults
    (some (JsonVal.obj [("type", JsonVal.str ""), ("status", JsonVal.str "")])) "").2
    ⟨"", ""⟩ rfl
  have h2 := (C10_health_status_defaults none "systemd").1 rfl
  exact ⟨h1.1 rfl, by simpa using h1.2 rfl, h2.1⟩
